import Mathlib

/-!
Verification development for the pad-cogs monster-database plugin.

The definitions below are a shallow embedding of the Python sources
`dbcog/dbcog.py` (refresh orchestration, readiness, reload gates,
configuration-flag merging, index consistency reporting) and
`padinfo/view/id.py` (the ID-view rendering helpers).  Pure functions
are translated to Lean functions; the asynchronous refresh loop and the
two forced-reload commands are modelled as explicit step functions and
effect sequences over small state types.
-/

namespace DBCogSpec

/-- Modelled from the spec: a region/server variant of the dataset
(`tsutils.enums.Server`, outside src).  The concrete constructors do not
matter to any claim; only that a default exists. -/
inductive Server where
  | NA
  | JP
  | KR
deriving DecidableEq, Repr

/-- Modelled from the spec: the configured default region
(`dbcog.models.enum_types.DEFAULT_SERVER`, outside src). -/
def DEFAULT_SERVER : Server := Server.NA

/-- A value stored in the find-monster flags dictionary: the defaults hold a
boolean (`na_prio`) and a server; user overrides may hold anything, which we
range over with an extra constructor. -/
inductive FlagVal where
  | boolVal : Bool → FlagVal
  | serverVal : Server → FlagVal
  | otherVal : String → FlagVal
deriving DecidableEq, Repr

/-- A Python dict of flags, modelled by its lookup function. -/
def FlagDict : Type := String → Option FlagVal

/-- Python dict merge `{**a, **b}`: keys of `b` take precedence over `a`. -/
def dictMerge (a b : FlagDict) : FlagDict :=
  fun k =>
    match b k with
    | some v => some v
    | none => a k

/-- `self.fm_flags_default = {'na_prio': True, 'server': DEFAULT_SERVER}`
(dbcog.py line 54). -/
def fm_flags_default : FlagDict :=
  fun k =>
    if k = "na_prio" then some (FlagVal.boolVal true)
    else if k = "server" then some (FlagVal.serverVal DEFAULT_SERVER)
    else none

/-- `get_fm_flags` (dbcog.py lines 294-295):
`{**self.fm_flags_default, **(await self.config.user_from_id(author_id).fm_flags())}` —
the instance defaults overlaid by the user's currently stored flags. -/
def get_fm_flags (user_fm_flags : FlagDict) : FlagDict :=
  dictMerge fm_flags_default user_fm_flags

/-- `find_monster` / `find_monsters` (dbcog.py lines 297-301) construct a fresh
`FindMonster(self, await self.get_fm_flags(author_id))` on every call.  A
sequence of calls is modelled by the sequence of the user's stored-flag
dictionaries at each call time; the flags actually used at call `i` are
recomputed from the `i`-th snapshot. -/
def find_monster_call_flags (stored : List FlagDict) : List FlagDict :=
  stored.map get_fm_flags

end DBCogSpec

namespace DBCogSpec

/-! ## The background refresh loop (`reload_data_task`, dbcog.py 177-200) -/

/-- Outcome of one `download_and_refresh_nicknames()` attempt: either it
returns normally or it raises some exception (carried as a message). -/
inductive RefreshOutcome where
  | ok
  | error : String → RefreshOutcome
deriving DecidableEq, Repr

/-- `wait_time = 60 if short_wait else 60 * 60 * 4` (dbcog.py line 196). -/
def wait_time (short_wait : Bool) : Nat :=
  if short_wait then 60 else 60 * 60 * 4

/-- One iteration of the `while` body of `reload_data_task`
(dbcog.py lines 184-197): `short_wait` starts `False`; the refresh attempt
runs inside `try`; on normal return `self._is_ready.set()` runs; on any
exception the handler sets `short_wait = True` and the loop continues.
Returns the readiness flag after the iteration together with the sleep
duration chosen for it.  The function is total in the outcome: every
exception is absorbed by the handler, none propagates out. -/
def reload_data_iteration (is_ready : Bool) (outcome : RefreshOutcome) :
    Bool × Nat :=
  let short_wait := false
  match outcome with
  | RefreshOutcome.ok =>
      let is_ready := true
      (is_ready, wait_time short_wait)
  | RefreshOutcome.error _ =>
      let short_wait := true
      (is_ready, wait_time short_wait)

/-- Run the refresh loop over a finite prefix of attempt outcomes, tracking
the readiness flag. -/
def run_reload_loop (is_ready : Bool) (outcomes : List RefreshOutcome) : Bool :=
  outcomes.foldl (fun r o => (reload_data_iteration r o).1) is_ready

/-- The readiness flag observed after each iteration of the loop, starting
from flag state `is_ready`. -/
def reload_loop_states (is_ready : Bool) : List RefreshOutcome → List Bool
  | [] => []
  | o :: os =>
      let r := (reload_data_iteration is_ready o).1
      r :: reload_loop_states r os

/-- Behaviour of a caller suspending on the readiness event. -/
inductive WaitBehaviour where
  | returnsImmediately
  | suspends
deriving DecidableEq, Repr

/-- `wait_until_ready` (dbcog.py lines 75-81) awaits `self._is_ready.wait()`.
Modelled from the spec: `asyncio.Event.wait` returns immediately when the
flag is set and suspends the caller until it is set otherwise. -/
def wait_until_ready (is_ready : Bool) : WaitBehaviour :=
  if is_ready then WaitBehaviour.returnsImmediately else WaitBehaviour.suspends

/-- `__init__` (dbcog.py line 46): `self._is_ready = asyncio.Event()` — a
fresh event starts unset. -/
def init_is_ready : Bool := false

/-- `cog_unload` (dbcog.py lines 169-175) clears the readiness flag when the
cog is torn down; it is the only clear in the module and runs only at
unload, never inside a refresh iteration. -/
def cog_unload (_is_ready : Bool) : Bool := false

/-! ## The forced reload commands (`forceindexreload` 110-122,
`forceindexreload3` 124-135) -/

/-- The state of the two reload gates, `self.fir_lock` and `self.fir3_lock`
(dbcog.py lines 51-52). -/
structure Locks where
  fir_locked : Bool
  fir3_locked : Bool
deriving DecidableEq, Repr

/-- The observable actions a forced-reload command performs, in order. -/
inductive Effect where
  | sendAlreadyReloading
  | acquireFir
  | releaseFir
  | acquireFir3
  | releaseFir3
  | sendStartingReload
  | waitUntilReady
  | downloadAndRefresh
  | createIndex
  | sendReloadFinished
deriving DecidableEq, Repr

/-- `forceindexreload` (dbcog.py lines 110-122): if `self.fir_lock.locked()`
then send "Index is already being reloaded." and return; otherwise enter
`async with ctx.typing(), self.fir_lock`, send "Starting reload...",
`await self.wait_until_ready()`, `await self.download_and_refresh_nicknames()`,
and send the finish message. -/
def forceindexreload (l : Locks) : List Effect :=
  if l.fir_locked then
    [Effect.sendAlreadyReloading]
  else
    [Effect.acquireFir, Effect.sendStartingReload, Effect.waitUntilReady,
     Effect.downloadAndRefresh, Effect.sendReloadFinished, Effect.releaseFir]

/-- `forceindexreload3` (dbcog.py lines 124-135): if `self.fir3_lock.locked()`
then send "Index is already being reloaded." and return; otherwise enter
`async with ctx.typing(), self.fir3_lock`, `await self.wait_until_ready()`,
`await self.create_index()`, and send the finish message. -/
def forceindexreload3 (l : Locks) : List Effect :=
  if l.fir3_locked then
    [Effect.sendAlreadyReloading]
  else
    [Effect.acquireFir3, Effect.waitUntilReady,
     Effect.createIndex, Effect.sendReloadFinished, Effect.releaseFir3]

/-- Whether an effect is the reload work of a forced-reload command (the body
that rebuilds and republishes data). -/
def Effect.isReloadWork : Effect → Bool
  | Effect.downloadAndRefresh => true
  | Effect.createIndex => true
  | _ => false

/-! ## Interleaved system semantics for the commands and the refresh loop

A small-step system in which the background `reload_data_task` loop runs
concurrently with one invocation of each forced-reload command.  Each command
invocation is represented by a program counter into its effect list (the
un-gated branch: the invocation we follow is the one that found its gate
free).  A `waitUntilReady` effect can only step when the readiness flag is
set, matching `asyncio.Event.wait`; the background loop's successful
iteration publishes a generation and then sets the flag, matching
`download_and_refresh_nicknames()` followed by `self._is_ready.set()`. -/

structure Sys where
  /-- `self._is_ready` as a boolean flag. -/
  ready : Bool
  /-- Program counter of one `forceindexreload` invocation into
  `forceindexreload` with the gate free. -/
  fir_pc : Nat
  /-- Program counter of one `forceindexreload3` invocation. -/
  fir3_pc : Nat
  /-- Number of publishes performed by the background loop. -/
  bg_publishes : Nat
  /-- Number of reload-work effects executed by the two commands. -/
  forced_publishes : Nat
deriving DecidableEq, Repr

/-- The initial system state: flag unset (fresh `asyncio.Event`), both
command invocations at their first effect, nothing published. -/
def Sys.init : Sys :=
  { ready := false, fir_pc := 0, fir3_pc := 0,
    bg_publishes := 0, forced_publishes := 0 }

/-- The effect list `forceindexreload` executes when its gate was free. -/
def fir_program : List Effect := forceindexreload { fir_locked := false, fir3_locked := false }

/-- The effect list `forceindexreload3` executes when its gate was free. -/
def fir3_program : List Effect := forceindexreload3 { fir_locked := false, fir3_locked := false }

/-- An effect `e` is enabled in state `s` exactly when it is not a
`waitUntilReady` blocked on an unset flag. -/
def effectEnabled (s : Sys) (e : Effect) : Prop :=
  e = Effect.waitUntilReady → s.ready = true

instance (s : Sys) (e : Effect) : Decidable (effectEnabled s e) := by
  unfold effectEnabled
  infer_instance

/-- Executing an effect bumps the forced-publish counter when it is reload
work; no command effect ever sets the readiness flag (`_is_ready.set()`
appears only in `reload_data_task`). -/
def execEffect (s : Sys) (e : Effect) : Sys :=
  if e.isReloadWork then { s with forced_publishes := s.forced_publishes + 1 }
  else s

/-- One interleaved step of the system: a background-loop iteration
(successful or failing), or the next effect of one of the two command
invocations, subject to the blocking rule for `waitUntilReady`. -/
inductive Step : Sys → Sys → Prop
  | bgSuccess (s : Sys) :
      Step s { s with ready := true, bg_publishes := s.bg_publishes + 1 }
  | bgFailure (s : Sys) :
      Step s s
  | firStep (s : Sys) (e : Effect) (h : fir_program.get? s.fir_pc = some e)
      (henabled : effectEnabled s e) :
      Step s { execEffect s e with fir_pc := s.fir_pc + 1 }
  | fir3Step (s : Sys) (e : Effect) (h : fir3_program.get? s.fir3_pc = some e)
      (henabled : effectEnabled s e) :
      Step s { execEffect s e with fir3_pc := s.fir3_pc + 1 }

/-- Reachability from the initial system state. -/
inductive Reachable : Sys → Prop
  | init : Reachable Sys.init
  | step {s t : Sys} : Reachable s → Step s t → Reachable t

end DBCogSpec

namespace PadInfoSpec

/-! ## Data carried by the ID view (padinfo/view/id.py)

The `MonsterModel` class lives outside src; its fields are modelled from
the spec's entity record: ordered awakening list with a suffixed count of
super awakenings, latent-slot count, killer-affinity tags, equip flag,
active-skill reference with cooldown min/max, and a numeric label. -/

/-- Modelled from the spec: one awakening entry of the ordered awakening
list (`AwakeningModel`: an awoken-skill id and a display name). -/
structure Awakening where
  awoken_skill_id : Nat
  name : String
deriving DecidableEq, Repr

/-- Modelled from the spec: an active skill with its cooldown interval
(`turn_max` at skill level 1, `turn_min` at maximum skill level). -/
structure ActiveSkill where
  turn_max : Nat
  turn_min : Nat
  desc : String
deriving DecidableEq, Repr

/-- Modelled from the spec: the entity fields the ID view reads.  Python's
`==` between model objects is modelled as structural equality. -/
structure Monster where
  monster_no_na : Nat
  is_equip : Bool
  awakenings : List Awakening
  superawakening_count : Nat
  killers : List String
  latent_slots : Nat
  active_skill : Option ActiveSkill
deriving DecidableEq, Repr

/-- Modelled from the spec: an evolution edge's data as used by the view —
its reversibility flag (`Evolution.reversible`). -/
structure Evolution where
  reversible : Bool
deriving DecidableEq, Repr

/-- Modelled from the spec: one entry of the view state's `alt_monsters`
list (`MonsterEvolution`, outside src): a monster together with the
evolution edge that produced it, if any. -/
structure MonsterEvolution where
  monster : Monster
  evolution : Option Evolution
deriving DecidableEq, Repr

/-! ## Rendered output

`discordmenu`'s `Box`/`Text`/`BoldText` components are outside src; they are
modelled as a tree that records each component's children in order.  `Box`
drops `None` children, so the embedding takes optional children and keeps
the present ones; the optional delimiter string is recorded as given. -/

inductive Comp where
  | text : String → Comp
  | boldText : String → Comp
  | box : Option String → List Comp → Comp
deriving Repr

/-- `Box(*items, delimiter=d)` with `None` items removed. -/
def mkBox (delimiter : Option String) (items : List (Option Comp)) : Comp :=
  Comp.box delimiter (items.filterMap id)

/-- Python list slicing `xs[:n]` for a possibly negative `n`. -/
def pySliceTo (xs : List α) (n : Int) : List α :=
  if 0 ≤ n then xs.take n.toNat
  else xs.take (((xs.length : Int) + n).toNat)

/-- Python list slicing `xs[n:]` for a possibly negative `n`. -/
def pySliceFrom (xs : List α) (n : Int) : List α :=
  if 0 ≤ n then xs.drop n.toNat
  else xs.drop (((xs.length : Int) + n).toNat)

/-! The emoji lookups (`get_awakening_emoji`, `get_emoji` in
`padinfo.common.emoji_map`, outside src) are passed in as functions: the
rendering claims hold for every emoji map. -/

/-- `_get_awakening_text(awakening)` (id.py lines 142-143):
`get_awakening_emoji(awakening.awoken_skill_id, awakening.name)`. -/
def _get_awakening_text (getAwakeningEmoji : Nat → String → String)
    (a : Awakening) : String :=
  getAwakeningEmoji a.awoken_skill_id a.name

/-- `_killer_latent_emoji(latent_name)` (id.py lines 146-147):
`get_emoji('latent_killer_{}'.format(latent_name.lower()))`. -/
def _killer_latent_emoji (getEmoji : String → String) (latent_name : String) :
    String :=
  getEmoji ("latent_killer_" ++ latent_name.toLower)

/-- `IdView.normal_awakenings_row` (id.py lines 192-196). -/
def normal_awakenings_row (getAwakeningEmoji : Nat → String → String)
    (m : Monster) : Comp :=
  let normal_awakenings : Int :=
    (m.awakenings.length : Int) - (m.superawakening_count : Int)
  let normal_awakenings_emojis :=
    (pySliceTo m.awakenings normal_awakenings).map
      (_get_awakening_text getAwakeningEmoji)
  mkBox (some " ") (normal_awakenings_emojis.map (fun e => some (Comp.text e)))

/-- `IdView.super_awakenings_row` (id.py lines 198-205); returns `none` when
there are no super-awakening emojis. -/
def super_awakenings_row (getEmoji : String → String)
    (getAwakeningEmoji : Nat → String → String) (m : Monster) : Option Comp :=
  let normal_awakenings : Int :=
    (m.awakenings.length : Int) - (m.superawakening_count : Int)
  let super_awakenings_emojis :=
    (pySliceFrom m.awakenings normal_awakenings).map
      (_get_awakening_text getAwakeningEmoji)
  if 0 < super_awakenings_emojis.length then
    some (mkBox (some " ")
      (some (Comp.text (getEmoji "sa_questionmark")) ::
        super_awakenings_emojis.map (fun e => some (Comp.text e))))
  else none

/-- `IdView.all_awakenings_row` (id.py lines 207-224): for a transformed
monster it shows the monster's own normal awakenings behind an up triangle,
then the transform base's full awakening row behind a down triangle, then
the monster's super awakenings; for a monster that is its own transform
base it shows only its own rows. -/
def all_awakenings_row (getEmoji : String → String)
    (getAwakeningEmoji : Nat → String → String)
    (m transform_base : Monster) : Comp :=
  if m.awakenings.length = 0 then
    mkBox none [some (Comp.text "No Awakenings")]
  else
    mkBox none
      [some (mkBox (some " ")
          [some (Comp.text (if m ≠ transform_base then "🔺" else "")),
           some (normal_awakenings_row getAwakeningEmoji m)]),
       (if _h : m = transform_base then none
        else some (mkBox (some " ")
          [some (Comp.text "🔻"),
           some (all_awakenings_row getEmoji getAwakeningEmoji
                  transform_base transform_base)])),
       super_awakenings_row getEmoji getAwakeningEmoji m]
termination_by (if m = transform_base then 0 else 1)
decreasing_by simp_all

/-- `IdView.killers_row` (id.py lines 226-238). -/
def killers_row (getEmoji : String → String) (m transform_base : Monster) :
    Comp :=
  let killers := if m = transform_base then m.killers else transform_base.killers
  let killers_text :=
    if "Any" ∈ killers then "Any"
    else String.intercalate " " (killers.map (_killer_latent_emoji getEmoji))
  mkBox (some " ")
    [some (Comp.boldText "Available killers:"),
     some (Comp.text (if m ≠ transform_base then "🔻" else "")),
     some (Comp.text ("[" ++ toString (if m = transform_base then m.latent_slots
                        else transform_base.latent_slots) ++ " slots]")),
     some (Comp.text killers_text)]

/-- `IdView.active_skill_header` (id.py lines 283-301). -/
def active_skill_header (m transform_base : Monster) : Comp :=
  let active_skill := m.active_skill
  let active_cd :=
    if m = transform_base then
      match active_skill with
      | some sk => "(" ++ toString sk.turn_max ++ " -> " ++ toString sk.turn_min ++ ")"
      | none => "None"
    else
      let base_skill := transform_base.active_skill
      let base_cd :=
        match base_skill with
        | some sk =>
            " (🔻 " ++ toString sk.turn_max ++ " -> " ++
              toString sk.turn_min ++ ")"
        | none => "None"
      let active_cd :=
        match active_skill with
        | some sk => "(" ++ toString sk.turn_min ++ " cd)"
        | none => "None"
      active_cd ++ base_cd
  mkBox (some " ")
    [some (Comp.boldText "Active Skill"), some (Comp.boldText active_cd)]

/-- `alt_fmt(monsterevo, state)` (id.py lines 26-33): equips are bracketed
`⌈id⌉`; monsters with no evolution edge or a reversible one are plain;
irreversible evolutions are bracketed `⌊id⌋`. -/
def alt_fmt (monsterevo : MonsterEvolution) : String :=
  let id := toString monsterevo.monster.monster_no_na
  if monsterevo.monster.is_equip then
    "⌈" ++ id ++ "⌉"
  else
    match monsterevo.evolution with
    | none => id
    | some evo => if evo.reversible then id else "⌊" ++ id ++ "⌋"

/-- The legend parts of `evos_embed_field` (id.py lines 172-178):
"⌊Irreversible⌋" is appended when some alt monster's evolution edge exists
and is not reversible; "⌈Equip⌉" when some alt monster is an equip. -/
def evos_legend_parts (alt_monsters : List MonsterEvolution) : List String :=
  let l1 : List String :=
    if alt_monsters.any (fun alt_evo =>
        match alt_evo.evolution with
        | some evo => !evo.reversible
        | none => false) then
      ["⌊Irreversible⌋"]
    else []
  let l2 : List String :=
    if alt_monsters.any (fun alt_evo => alt_evo.monster.is_equip) then
      ["⌈Equip⌉"]
    else []
  l1 ++ l2

end PadInfoSpec

namespace DBCogSpec

/-! ## Index consistency reporting (`check_index`, dbcog.py 146-163) -/

/-- Modelled from the spec: a monster index with its build-time issue list
(`MonsterIndex.issues`, outside src). -/
structure MonsterIndex where
  issues : List String
deriving DecidableEq, Repr

/-- Modelled from the spec: the entity graph as `check_index` reads it — its
build-time issue list and the optional restricted-mode allow-list
(`graph.debug_monster_ids`, `None` for unrestricted builds). -/
structure MonsterGraph where
  issues : List String
  debug_monster_ids : Option (List Int)
deriving DecidableEq, Repr

/-- Modelled from the spec: the database object as `check_index` reads it. -/
structure Database where
  graph : MonsterGraph
deriving DecidableEq, Repr

/-- The issue list `check_index` accumulates (dbcog.py lines 147-151):
starts empty, extends with `self.database.graph.issues`, then with each
index's issues in turn, then with the self-test results of
`await self.run_tests()`. -/
def check_index_issues (database : Database) (indexes : List MonsterIndex)
    (test_results : List String) : List String :=
  let issues : List String := []
  let issues := issues ++ database.graph.issues
  let issues := indexes.foldl (fun acc index => acc ++ index.issues) issues
  let issues := issues ++ test_results
  issues

/-- The operator report `check_index` sends (dbcog.py lines 153-163): only
when the issue list is non-empty and `self.database.graph.debug_monster_ids
is None` does it send pages of `"Load Warnings:\n" + "\n".flatten(issues[:100])`;
otherwise nothing is sent.  The result is the text handed to `pagify`, or
`none` when no report is sent. -/
def check_index_report (database : Database) (indexes : List MonsterIndex)
    (test_results : List String) : Option String :=
  let issues := check_index_issues database indexes test_results
  if issues ≠ [] ∧ database.graph.debug_monster_ids = none then
    some ("Load Warnings:\n" ++ String.intercalate "\n" (issues.take 100))
  else
    none

/-- `get_debug_monsters` (dbcog.py lines 289-292): the configured monster
allow-list when debug mode is on, `None` otherwise. -/
def get_debug_monsters (debug_mode : Bool) (debug_mode_monsters : List Int) :
    Option (List Int) :=
  if debug_mode then some debug_mode_monsters else none

end DBCogSpec

namespace DBCogSpec

/-! ## Lemmas about the refresh loop -/

lemma run_reload_loop_cons (b : Bool) (o : RefreshOutcome)
    (os : List RefreshOutcome) :
    run_reload_loop b (o :: os) =
      run_reload_loop (reload_data_iteration b o).1 os := rfl

lemma run_reload_loop_true : ∀ os : List RefreshOutcome,
    run_reload_loop true os = true
  | [] => rfl
  | o :: os => by
      rw [run_reload_loop_cons]
      cases o <;> exact run_reload_loop_true os

lemma run_reload_loop_false_iff : ∀ os : List RefreshOutcome,
    (run_reload_loop false os = true ↔ RefreshOutcome.ok ∈ os)
  | [] => by simp [run_reload_loop]
  | o :: os => by
      rw [run_reload_loop_cons]
      cases o with
      | ok =>
          simp [reload_data_iteration, run_reload_loop_true os]
      | error s =>
          simpa [reload_data_iteration] using run_reload_loop_false_iff os

lemma run_reload_loop_append (b : Bool) (os more : List RefreshOutcome) :
    run_reload_loop b (os ++ more) =
      run_reload_loop (run_reload_loop b os) more := by
  simp [run_reload_loop, List.foldl_append]

/-- C1: the readiness flag starts unset; running any prefix of refresh
iterations sets it exactly when some iteration succeeded — so it turns on at
the first successful download-and-refresh cycle; once set it stays set under
every further outcome, successes and failures alike; and a caller of
`wait_until_ready` suspends while the flag is unset and returns immediately
once it is set. -/
theorem c1_readiness_event :
    init_is_ready = false
    ∧ (∀ outcomes : List RefreshOutcome,
        (run_reload_loop false outcomes = true ↔ RefreshOutcome.ok ∈ outcomes))
    ∧ (∀ outcomes : List RefreshOutcome, run_reload_loop true outcomes = true)
    ∧ (∀ os more : List RefreshOutcome, run_reload_loop false os = true →
        run_reload_loop false (os ++ more) = true)
    ∧ wait_until_ready true = WaitBehaviour.returnsImmediately
    ∧ wait_until_ready false = WaitBehaviour.suspends := by
  refine ⟨rfl, run_reload_loop_false_iff, run_reload_loop_true, ?_, rfl, rfl⟩
  intro os more h
  rw [run_reload_loop_append, h]
  exact run_reload_loop_true more

/-- Witness for C1: after a successful cycle followed by a failing one the
flag is still set. -/
theorem c1_readiness_event_witness :
    run_reload_loop false [RefreshOutcome.ok] = true
    ∧ run_reload_loop false
        ([RefreshOutcome.ok] ++ [RefreshOutcome.error "fetch failed"]) = true := by
  have h : run_reload_loop false [RefreshOutcome.ok] = true := by decide
  exact ⟨h, c1_readiness_event.2.2.2.1 [RefreshOutcome.ok]
    [RefreshOutcome.error "fetch failed"] h⟩

/-- C3: every refresh iteration absorbs a failing attempt and returns
normally with a retry wait; the sleep is 4 hours (14400 s) after a success
and 60 s after a failure, and a failure leaves the readiness flag as it
was. -/
theorem c3_catch_and_backoff :
    (∀ is_ready : Bool,
        reload_data_iteration is_ready RefreshOutcome.ok = (true, 4 * 60 * 60))
    ∧ (∀ (is_ready : Bool) (msg : String),
        reload_data_iteration is_ready (RefreshOutcome.error msg) =
          (is_ready, 60)) := by
  constructor
  · intro r
    simp [reload_data_iteration, wait_time]
  · intro r msg
    simp [reload_data_iteration, wait_time]

/-- C2: a forced full reload finding `fir_lock` held, and a forced
index-only reload finding `fir3_lock` held, only send "already being
reloaded" and perform no reload work (nothing is queued); each command
consults only its own gate, and with its own gate free it performs its
reload regardless of the other gate's state. -/
theorem c2_reload_gates :
    (∀ l : Locks, l.fir_locked = true →
        forceindexreload l = [Effect.sendAlreadyReloading])
    ∧ (∀ l : Locks, l.fir3_locked = true →
        forceindexreload3 l = [Effect.sendAlreadyReloading])
    ∧ (∀ l l' : Locks, l.fir_locked = l'.fir_locked →
        forceindexreload l = forceindexreload l')
    ∧ (∀ l l' : Locks, l.fir3_locked = l'.fir3_locked →
        forceindexreload3 l = forceindexreload3 l')
    ∧ (∀ l : Locks, l.fir_locked = false →
        Effect.downloadAndRefresh ∈ forceindexreload l)
    ∧ (∀ l : Locks, l.fir3_locked = false →
        Effect.createIndex ∈ forceindexreload3 l) := by
  refine ⟨?_, ?_, ?_, ?_, ?_, ?_⟩
  · intro l h; simp [forceindexreload, h]
  · intro l h; simp [forceindexreload3, h]
  · intro l l' h; simp [forceindexreload, h]
  · intro l l' h; simp [forceindexreload3, h]
  · intro l h; simp [forceindexreload, h]
  · intro l h; simp [forceindexreload3, h]

/-- Witness for C2: with the full-reload gate held the command only reports;
with the full-reload gate free but the index-only gate held, the full reload
still proceeds to its work. -/
theorem c2_reload_gates_witness :
    ({ fir_locked := true, fir3_locked := false : Locks }.fir_locked = true
      ∧ forceindexreload { fir_locked := true, fir3_locked := false } =
          [Effect.sendAlreadyReloading])
    ∧ ({ fir_locked := false, fir3_locked := true : Locks }.fir_locked = false
      ∧ Effect.downloadAndRefresh ∈
          forceindexreload { fir_locked := false, fir3_locked := true }) :=
  ⟨⟨rfl, c2_reload_gates.1 { fir_locked := true, fir3_locked := false } rfl⟩,
   ⟨rfl, c2_reload_gates.2.2.2.2.1 { fir_locked := false, fir3_locked := true } rfl⟩⟩

/-- C4: the find-monster flags are the instance defaults overlaid by the
calling user's stored overrides — a stored key always wins, an absent key
falls back to the default (`na_prio = True`, `server = DEFAULT_SERVER`) —
and in a sequence of calls the flags used by call `i` are recomputed from
the user's stored dictionary as of call `i`, never from an earlier call. -/
theorem c4_fm_flags_fresh_merge :
    (∀ (user_fm_flags : FlagDict) (k : String) (v : FlagVal),
        user_fm_flags k = some v → get_fm_flags user_fm_flags k = some v)
    ∧ (∀ (user_fm_flags : FlagDict) (k : String),
        user_fm_flags k = none →
          get_fm_flags user_fm_flags k = fm_flags_default k)
    ∧ fm_flags_default "na_prio" = some (FlagVal.boolVal true)
    ∧ fm_flags_default "server" = some (FlagVal.serverVal DEFAULT_SERVER)
    ∧ (∀ (stored : List FlagDict) (i : Nat),
        (find_monster_call_flags stored).get? i =
          (stored.get? i).map get_fm_flags) := by
  refine ⟨?_, ?_, rfl, rfl, ?_⟩
  · intro u k v h
    simp [get_fm_flags, dictMerge, h]
  · intro u k h
    simp [get_fm_flags, dictMerge, h]
  · intro stored i
    simp [find_monster_call_flags]

/-- Witness for C4: a user override of `na_prio` wins over the default, an
absent `server` key falls back to the default server, and in a two-call
sequence the second call sees the second stored dictionary. -/
theorem c4_fm_flags_fresh_merge_witness :
    ((fun k => if k = "na_prio" then some (FlagVal.boolVal false) else none :
        FlagDict) "na_prio" = some (FlagVal.boolVal false)
      ∧ get_fm_flags
          (fun k => if k = "na_prio" then some (FlagVal.boolVal false) else none)
          "na_prio" = some (FlagVal.boolVal false))
    ∧ ((fun _ => none : FlagDict) "server" = none
      ∧ get_fm_flags (fun _ => none) "server" = fm_flags_default "server")
    ∧ (find_monster_call_flags [fun _ => none,
        fun k => if k = "na_prio" then some (FlagVal.boolVal false) else none]).get? 1 =
        some (get_fm_flags
          (fun k => if k = "na_prio" then some (FlagVal.boolVal false) else none)) :=
  ⟨⟨rfl, c4_fm_flags_fresh_merge.1 _ "na_prio" _ rfl⟩,
   ⟨rfl, c4_fm_flags_fresh_merge.2.1 _ "server" rfl⟩,
   c4_fm_flags_fresh_merge.2.2.2.2 _ 1⟩

/-! ## Lemmas about the issue report -/

lemma check_index_foldl (indexes : List MonsterIndex) (init : List String) :
    indexes.foldl (fun acc index => acc ++ index.issues) init
      = init ++ (indexes.map MonsterIndex.issues).flatten := by
  induction indexes generalizing init with
  | nil => simp
  | cons x xs ih => simp [ih, List.append_assoc]

/-- C8: the issue list a build cycle reports is the entity graph's issues,
then every index's issues in order, then the self-test results; and the
report sent to operators contains at most the first 100 issue lines. -/
theorem c8_report_order_and_cap :
    ∀ (database : Database) (indexes : List MonsterIndex)
      (test_results : List String),
      check_index_issues database indexes test_results
        = database.graph.issues ++ (indexes.map MonsterIndex.issues).flatten
            ++ test_results
      ∧ ((check_index_issues database indexes test_results).take 100).length ≤ 100
      ∧ (database.graph.debug_monster_ids = none →
          check_index_issues database indexes test_results ≠ [] →
          check_index_report database indexes test_results
            = some ("Load Warnings:\n" ++ String.intercalate "\n"
                ((database.graph.issues ++ (indexes.map MonsterIndex.issues).flatten
                  ++ test_results).take 100))) := by
  intro db indexes tests
  have horder : check_index_issues db indexes tests
      = db.graph.issues ++ (indexes.map MonsterIndex.issues).flatten ++ tests := by
    simp [check_index_issues, check_index_foldl, List.append_assoc]
  refine ⟨horder, ?_, ?_⟩
  · rw [List.length_take]
    exact Nat.min_le_left _ _
  · intro hdebug hne
    rw [check_index_report, if_pos ⟨hne, hdebug⟩, horder]

/-- Witness for C8: with one graph issue, one index issue and one test
issue, an unrestricted build reports all three in order under the cap. -/
theorem c8_report_order_and_cap_witness :
    (({ graph := { issues := ["g"], debug_monster_ids := none } : Database
       }).graph.debug_monster_ids = none
      ∧ check_index_issues { graph := { issues := ["g"], debug_monster_ids := none } }
          [{ issues := ["i"] }] ["t"] ≠ [])
    ∧ check_index_report { graph := { issues := ["g"], debug_monster_ids := none } }
        [{ issues := ["i"] }] ["t"]
        = some ("Load Warnings:\n" ++ String.intercalate "\n"
            ((["g"] ++ ([[ "i" ]] : List (List String)).flatten ++ ["t"]).take 100)) := by
  have h := (c8_report_order_and_cap
    { graph := { issues := ["g"], debug_monster_ids := none } }
    [{ issues := ["i"] }] ["t"]).2.2 rfl (by decide)
  exact ⟨⟨rfl, by decide⟩, by simpa using h⟩

/-- C9: when the current generation was built in restricted/debug mode (the
graph's debug-monster id list is not `None`), the post-build consistency
check sends no operator report at all, even when issues were collected. -/
theorem c9_debug_build_sends_no_report :
    ∀ (database : Database) (indexes : List MonsterIndex)
      (test_results : List String) (ids : List Int),
      database.graph.debug_monster_ids = some ids →
      check_index_report database indexes test_results = none := by
  intro db indexes tests ids h
  rw [check_index_report, if_neg]
  rintro ⟨-, hnone⟩
  rw [h] at hnone
  exact Option.noConfusion hnone

/-- Witness for C9: a debug-restricted build with a non-empty issue list
still sends nothing. -/
theorem c9_debug_build_sends_no_report_witness :
    check_index_issues
        { graph := { issues := ["g"], debug_monster_ids := some [3260] } }
        [] ["t"] ≠ []
    ∧ check_index_report
        { graph := { issues := ["g"], debug_monster_ids := some [3260] } }
        [] ["t"] = none :=
  ⟨by decide,
   c9_debug_build_sends_no_report
     { graph := { issues := ["g"], debug_monster_ids := some [3260] } }
     [] ["t"] [3260] rfl⟩

end DBCogSpec

namespace PadInfoSpec

/-! ## Lemmas about the awakening slices -/

lemma pySliceTo_sub_of_le (xs : List α) (c : Nat) (h : c ≤ xs.length) :
    pySliceTo xs ((xs.length : Int) - (c : Int)) = xs.take (xs.length - c) := by
  unfold pySliceTo
  rw [if_pos (by omega)]
  congr 1
  omega

lemma pySliceFrom_sub_of_le (xs : List α) (c : Nat) (h : c ≤ xs.length) :
    pySliceFrom xs ((xs.length : Int) - (c : Int)) = xs.drop (xs.length - c) := by
  unfold pySliceFrom
  rw [if_pos (by omega)]
  congr 1
  omega

/-- C6: when the super-awakening count does not exceed the awakening list's
length, the normal awakenings rendered are exactly the first
`len(awakenings) - superawakening_count` entries, the super awakenings are
exactly the remaining suffix, and the super-awakenings row is `None` exactly
when that suffix is empty. -/
theorem c6_awakening_split :
    ∀ (ge : String → String) (ga : Nat → String → String) (m : Monster),
      m.superawakening_count ≤ m.awakenings.length →
      (normal_awakenings_row ga m = mkBox (some " ")
          (((m.awakenings.take (m.awakenings.length - m.superawakening_count)).map
              (_get_awakening_text ga)).map (fun e => some (Comp.text e))))
      ∧ (super_awakenings_row ge ga m =
          if m.awakenings.drop (m.awakenings.length - m.superawakening_count) = []
          then none
          else some (mkBox (some " ")
            (some (Comp.text (ge "sa_questionmark")) ::
              ((m.awakenings.drop
                  (m.awakenings.length - m.superawakening_count)).map
                  (_get_awakening_text ga)).map (fun e => some (Comp.text e)))))
      ∧ (super_awakenings_row ge ga m = none ↔
          m.awakenings.drop (m.awakenings.length - m.superawakening_count) = []) := by
  intro ge ga m h
  have ht := pySliceTo_sub_of_le m.awakenings m.superawakening_count h
  have hd := pySliceFrom_sub_of_le m.awakenings m.superawakening_count h
  have hsuper : super_awakenings_row ge ga m =
      if m.awakenings.drop (m.awakenings.length - m.superawakening_count) = []
      then none
      else some (mkBox (some " ")
        (some (Comp.text (ge "sa_questionmark")) ::
          ((m.awakenings.drop
              (m.awakenings.length - m.superawakening_count)).map
              (_get_awakening_text ga)).map (fun e => some (Comp.text e)))) := by
    by_cases hdrop :
        m.awakenings.drop (m.awakenings.length - m.superawakening_count) = []
    · simp only [super_awakenings_row, hd, hdrop, if_pos]
      simp
    · have hpos : 0 < ((m.awakenings.drop
          (m.awakenings.length - m.superawakening_count)).map
            (_get_awakening_text ga)).length := by
        simp only [List.length_map]
        exact List.length_pos.mpr hdrop
      simp only [super_awakenings_row, hd, if_neg hdrop, if_pos hpos]
  refine ⟨?_, hsuper, ?_⟩
  · simp only [normal_awakenings_row, ht]
  · rw [hsuper]
    by_cases hdrop :
        m.awakenings.drop (m.awakenings.length - m.superawakening_count) = []
    · simp [hdrop]
    · simp [hdrop]

/-- A monster used as a concrete witness: three awakenings of which the last
one is super. -/
def awakeningWitnessMonster : Monster :=
  { monster_no_na := 1074, is_equip := false,
    awakenings := [{ awoken_skill_id := 10, name := "Enhanced HP" },
                   { awoken_skill_id := 11, name := "Enhanced Attack" },
                   { awoken_skill_id := 12, name := "Skill Boost" }],
    superawakening_count := 1, killers := [], latent_slots := 6,
    active_skill := none }

/-- Witness for C6: for a monster with three awakenings of which one is
super, the normal row holds the first two and the super row the last one. -/
theorem c6_awakening_split_witness :
    awakeningWitnessMonster.superawakening_count ≤
        awakeningWitnessMonster.awakenings.length
    ∧ ((normal_awakenings_row (fun _ s => s) awakeningWitnessMonster =
        mkBox (some " ")
          (((awakeningWitnessMonster.awakenings.take
              (awakeningWitnessMonster.awakenings.length -
                awakeningWitnessMonster.superawakening_count)).map
              (_get_awakening_text (fun _ s => s))).map
            (fun e => some (Comp.text e))))
      ∧ (super_awakenings_row (fun s => s) (fun _ s => s)
            awakeningWitnessMonster =
          if awakeningWitnessMonster.awakenings.drop
              (awakeningWitnessMonster.awakenings.length -
                awakeningWitnessMonster.superawakening_count) = []
          then none
          else some (mkBox (some " ")
            (some (Comp.text ((fun s => s) "sa_questionmark")) ::
              ((awakeningWitnessMonster.awakenings.drop
                  (awakeningWitnessMonster.awakenings.length -
                    awakeningWitnessMonster.superawakening_count)).map
                  (_get_awakening_text (fun _ s => s))).map
                (fun e => some (Comp.text e)))))
      ∧ (super_awakenings_row (fun s => s) (fun _ s => s)
            awakeningWitnessMonster = none ↔
          awakeningWitnessMonster.awakenings.drop
            (awakeningWitnessMonster.awakenings.length -
              awakeningWitnessMonster.superawakening_count) = [])) :=
  ⟨by decide,
   c6_awakening_split (fun s => s) (fun _ s => s) awakeningWitnessMonster
     (by decide)⟩

/-! ## Lemmas about the evolution-list rendering -/

lemma irreversible_any_iff (alt_monsters : List MonsterEvolution) :
    (alt_monsters.any (fun alt_evo =>
        match alt_evo.evolution with
        | some evo => !evo.reversible
        | none => false) = true) ↔
    ∃ alt_evo ∈ alt_monsters, ∃ evo : Evolution,
      alt_evo.evolution = some evo ∧ evo.reversible = false := by
  rw [List.any_eq_true]
  constructor
  · rintro ⟨a, ha, hp⟩
    refine ⟨a, ha, ?_⟩
    cases hae : a.evolution with
    | none => rw [hae] at hp; simp at hp
    | some evo =>
        rw [hae] at hp
        exact ⟨evo, rfl, by simpa using hp⟩
  · rintro ⟨a, ha, evo, hae, hrev⟩
    exact ⟨a, ha, by rw [hae]; simp [hrev]⟩

/-- C7: in the evolution list, an equip monster is rendered `⌈id⌉` whatever
its evolution edge says; a non-equip monster with no evolution edge or a
reversible one is rendered unbracketed; a non-equip monster whose evolution
edge has `reversible = False` is rendered `⌊id⌋`; and the "Irreversible"
legend appears exactly when some listed alternative has an evolution edge
with `reversible = False`. -/
theorem c7_evo_bracket_legend :
    ∀ (monsterevo : MonsterEvolution) (alt_monsters : List MonsterEvolution),
      (monsterevo.monster.is_equip = true →
        alt_fmt monsterevo =
          "⌈" ++ toString monsterevo.monster.monster_no_na ++ "⌉")
      ∧ (monsterevo.monster.is_equip = false → monsterevo.evolution = none →
        alt_fmt monsterevo = toString monsterevo.monster.monster_no_na)
      ∧ (∀ evo : Evolution, monsterevo.monster.is_equip = false →
          monsterevo.evolution = some evo → evo.reversible = true →
          alt_fmt monsterevo = toString monsterevo.monster.monster_no_na)
      ∧ (∀ evo : Evolution, monsterevo.monster.is_equip = false →
          monsterevo.evolution = some evo → evo.reversible = false →
          alt_fmt monsterevo =
            "⌊" ++ toString monsterevo.monster.monster_no_na ++ "⌋")
      ∧ ("⌊Irreversible⌋" ∈ evos_legend_parts alt_monsters ↔
          ∃ alt_evo ∈ alt_monsters, ∃ evo : Evolution,
            alt_evo.evolution = some evo ∧ evo.reversible = false) := by
  intro me alts
  refine ⟨?_, ?_, ?_, ?_, ?_⟩
  · intro h; simp [alt_fmt, h]
  · intro h he; simp [alt_fmt, h, he]
  · intro evo h he hrev; simp [alt_fmt, h, he, hrev]
  · intro evo h he hrev; simp [alt_fmt, h, he, hrev]
  · rw [← irreversible_any_iff]
    unfold evos_legend_parts
    by_cases h1 : (alts.any (fun alt_evo =>
        match alt_evo.evolution with
        | some evo => !evo.reversible
        | none => false) = true)
    · by_cases h2 : (alts.any (fun alt_evo => alt_evo.monster.is_equip) = true) <;>
        simp [h1, h2]
    · by_cases h2 : (alts.any (fun alt_evo => alt_evo.monster.is_equip) = true) <;>
        simp [h1, h2]

/-- A non-equip monster used in the C7 witness. -/
def evoWitnessMonster : Monster :=
  { monster_no_na := 501, is_equip := false, awakenings := [],
    superawakening_count := 0, killers := [], latent_slots := 6,
    active_skill := none }

/-- An equip monster used in the C7 witness. -/
def evoWitnessEquip : Monster :=
  { monster_no_na := 502, is_equip := true, awakenings := [],
    superawakening_count := 0, killers := [], latent_slots := 6,
    active_skill := none }

/-- The irreversibly evolved non-equip alternative used in the C7 witness. -/
def evoWitnessAlt : MonsterEvolution :=
  { monster := evoWitnessMonster, evolution := some { reversible := false } }

/-- The equip alternative with the same irreversible edge, for the C7
witness. -/
def evoWitnessAltEquip : MonsterEvolution :=
  { monster := evoWitnessEquip, evolution := some { reversible := false } }

/-- Witness for C7: an irreversibly evolved non-equip monster is rendered
`⌊501⌋`; an equip with the same irreversible edge is rendered `⌈502⌉`; and a
list containing the former earns the "Irreversible" legend. -/
theorem c7_evo_bracket_legend_witness :
    (evoWitnessAlt.monster.is_equip = false
      ∧ evoWitnessAlt.evolution = some { reversible := false }
      ∧ alt_fmt evoWitnessAlt = "⌊" ++ toString (501 : Nat) ++ "⌋")
    ∧ (evoWitnessAltEquip.monster.is_equip = true
      ∧ alt_fmt evoWitnessAltEquip = "⌈" ++ toString (502 : Nat) ++ "⌉")
    ∧ ("⌊Irreversible⌋" ∈ evos_legend_parts [evoWitnessAlt]) :=
  ⟨⟨rfl, rfl,
    (c7_evo_bracket_legend evoWitnessAlt []).2.2.2.1
      { reversible := false } rfl rfl rfl⟩,
   ⟨rfl, (c7_evo_bracket_legend evoWitnessAltEquip []).1 rfl⟩,
   (c7_evo_bracket_legend evoWitnessAlt [evoWitnessAlt]).2.2.2.2.mpr
     ⟨evoWitnessAlt, List.mem_singleton.mpr rfl,
      { reversible := false }, rfl, rfl⟩⟩

/-! ## Transform-base fallback in the ID view (C5) -/

/-- A transform base used in the C5 statements: it has awakenings, killers,
latent slots and an active skill of its own. -/
def tfBase : Monster :=
  { monster_no_na := 500, is_equip := false,
    awakenings := [{ awoken_skill_id := 10, name := "Enhanced HP" }],
    superawakening_count := 0, killers := ["God"], latent_slots := 8,
    active_skill := some { turn_max := 12, turn_min := 7, desc := "base skill" } }

/-- A transformed form that differs from `tfBase` and has an empty awakening
list. -/
def tfFormNoAwakenings : Monster :=
  { monster_no_na := 501, is_equip := false, awakenings := [],
    superawakening_count := 0, killers := ["Dragon"], latent_slots := 6,
    active_skill := some { turn_max := 5, turn_min := 3, desc := "form skill" } }

/-- A transformed form that differs from `tfBase` and has awakenings of its
own. -/
def tfFormWithAwakenings : Monster :=
  { monster_no_na := 501, is_equip := false,
    awakenings := [{ awoken_skill_id := 20, name := "Enhanced Attack" },
                   { awoken_skill_id := 21, name := "Skill Boost" }],
    superawakening_count := 1, killers := ["Dragon"], latent_slots := 6,
    active_skill := some { turn_max := 5, turn_min := 3, desc := "form skill" } }

lemma all_awakenings_row_of_empty (ge : String → String)
    (ga : Nat → String → String) (m tb : Monster) (h : m.awakenings = []) :
    all_awakenings_row ge ga m tb = mkBox none [some (Comp.text "No Awakenings")] := by
  rw [all_awakenings_row]
  rw [if_pos]
  simp [h]

lemma all_awakenings_row_of_ne (ge : String → String)
    (ga : Nat → String → String) (m tb : Monster) (hne : m ≠ tb)
    (hawk : m.awakenings ≠ []) :
    all_awakenings_row ge ga m tb = mkBox none
      [some (mkBox (some " ") [some (Comp.text "🔺"),
         some (normal_awakenings_row ga m)]),
       some (mkBox (some " ") [some (Comp.text "🔻"),
         some (all_awakenings_row ge ga tb tb)]),
       super_awakenings_row ge ga m] := by
  rw [all_awakenings_row]
  rw [if_neg (by simpa using hawk)]
  simp [hne]

/-- Counterexample to C5 as stated: `tfFormNoAwakenings` is not its own
transform base (its base is `tfBase`, whose awakening list is non-empty),
yet its awakenings section renders only "No Awakenings" — the transform
base's awakenings are not displayed alongside, because
`all_awakenings_row` returns early whenever the displayed monster's own
awakening list is empty. -/
theorem c5_counterexample :
    tfFormNoAwakenings ≠ tfBase
    ∧ tfFormNoAwakenings.awakenings = []
    ∧ tfBase.awakenings ≠ []
    ∧ all_awakenings_row (fun s => s) (fun _ s => s) tfFormNoAwakenings tfBase
        = mkBox none [some (Comp.text "No Awakenings")]
    ∧ all_awakenings_row (fun s => s) (fun _ s => s) tfFormNoAwakenings tfBase
        ≠ mkBox none
            [some (mkBox (some " ") [some (Comp.text "🔺"),
               some (normal_awakenings_row (fun _ s => s) tfFormNoAwakenings)]),
             some (mkBox (some " ") [some (Comp.text "🔻"),
               some (all_awakenings_row (fun s => s) (fun _ s => s) tfBase tfBase)]),
             super_awakenings_row (fun s => s) (fun _ s => s) tfFormNoAwakenings] := by
  have hempty := all_awakenings_row_of_empty (fun s => s) (fun _ s => s)
    tfFormNoAwakenings tfBase rfl
  refine ⟨by decide, rfl, by decide, hempty, ?_⟩
  rw [hempty]
  have hsup : super_awakenings_row (fun s => s) (fun _ s => s)
      tfFormNoAwakenings = none := by
    simp [super_awakenings_row, pySliceFrom, tfFormNoAwakenings]
  rw [hsup]
  intro hcontra
  simp only [mkBox, List.filterMap] at hcontra
  exact absurd (congrArg (fun c => match c with
    | Comp.box _ children => children.length
    | _ => 0) hcontra) (by simp)

/-- C5 (amended): for every monster that is not its own transform base, the
killer affinities and latent-slot count shown are sourced from the transform
base, and the transform base's active-skill cooldown is displayed alongside
the transformed form's own; the transform base's awakenings are displayed
alongside the transformed form's own whenever the transformed form's
awakening list is non-empty, while a transformed form with an empty
awakening list shows only "No Awakenings". -/
theorem c5_transform_base_fallback :
    ∀ (ge : String → String) (ga : Nat → String → String) (m tb : Monster),
      m ≠ tb →
      (killers_row ge m tb = mkBox (some " ")
          [some (Comp.boldText "Available killers:"),
           some (Comp.text "🔻"),
           some (Comp.text ("[" ++ toString tb.latent_slots ++ " slots]")),
           some (Comp.text (if "Any" ∈ tb.killers then "Any"
             else String.intercalate " "
               (tb.killers.map (_killer_latent_emoji ge))))])
      ∧ (m.awakenings ≠ [] →
          all_awakenings_row ge ga m tb = mkBox none
            [some (mkBox (some " ") [some (Comp.text "🔺"),
               some (normal_awakenings_row ga m)]),
             some (mkBox (some " ") [some (Comp.text "🔻"),
               some (all_awakenings_row ge ga tb tb)]),
             super_awakenings_row ge ga m])
      ∧ (m.awakenings = [] →
          all_awakenings_row ge ga m tb =
            mkBox none [some (Comp.text "No Awakenings")])
      ∧ (active_skill_header m tb = mkBox (some " ")
          [some (Comp.boldText "Active Skill"),
           some (Comp.boldText
             ((match m.active_skill with
               | some sk => "(" ++ toString sk.turn_min ++ " cd)"
               | none => "None")
              ++ (match tb.active_skill with
                  | some sk => " (🔻 " ++ toString sk.turn_max ++ " -> "
                      ++ toString sk.turn_min ++ ")"
                  | none => "None")))]) := by
  intro ge ga m tb hne
  refine ⟨?_, ?_, ?_, ?_⟩
  · simp [killers_row, hne]
  · intro hawk
    exact all_awakenings_row_of_ne ge ga m tb hne hawk
  · intro hawk
    exact all_awakenings_row_of_empty ge ga m tb hawk
  · simp [active_skill_header, hne]

/-- Witness for C5 (amended): at the concrete transformed form
`tfFormWithAwakenings` over the base `tfBase`, the killers row carries the
base's 8 latent slots and God killer, the awakenings section includes the
base's full row, and the active-skill header appends the base's 12 -> 7
cooldown to the form's own. -/
theorem c5_transform_base_fallback_witness :
    tfFormWithAwakenings ≠ tfBase
    ∧ tfFormWithAwakenings.awakenings ≠ []
    ∧ (killers_row (fun s => s) tfFormWithAwakenings tfBase = mkBox (some " ")
        [some (Comp.boldText "Available killers:"),
         some (Comp.text "🔻"),
         some (Comp.text ("[" ++ toString tfBase.latent_slots ++ " slots]")),
         some (Comp.text (if "Any" ∈ tfBase.killers then "Any"
           else String.intercalate " "
             (tfBase.killers.map (_killer_latent_emoji (fun s => s)))))])
    ∧ (all_awakenings_row (fun s => s) (fun _ s => s)
          tfFormWithAwakenings tfBase = mkBox none
        [some (mkBox (some " ") [some (Comp.text "🔺"),
           some (normal_awakenings_row (fun _ s => s) tfFormWithAwakenings)]),
         some (mkBox (some " ") [some (Comp.text "🔻"),
           some (all_awakenings_row (fun s => s) (fun _ s => s) tfBase tfBase)]),
         super_awakenings_row (fun s => s) (fun _ s => s) tfFormWithAwakenings])
    ∧ (active_skill_header tfFormWithAwakenings tfBase = mkBox (some " ")
        [some (Comp.boldText "Active Skill"),
         some (Comp.boldText
           ((match tfFormWithAwakenings.active_skill with
             | some sk => "(" ++ toString sk.turn_min ++ " cd)"
             | none => "None")
            ++ (match tfBase.active_skill with
                | some sk => " (🔻 " ++ toString sk.turn_max ++ " -> "
                    ++ toString sk.turn_min ++ ")"
                | none => "None")))]) := by
  have h := c5_transform_base_fallback (fun s => s) (fun _ s => s)
    tfFormWithAwakenings tfBase (by decide)
  exact ⟨by decide, by decide, h.1, h.2.1 (by decide), h.2.2.2⟩

end PadInfoSpec

namespace DBCogSpec

/-! ## Invariants of the interleaved system (C10) -/

/-- The inductive invariant: readiness implies a background publish has
happened; a command past its `waitUntilReady` effect has seen readiness;
and any forced publish was performed while ready. -/
def SysInv (s : Sys) : Prop :=
  (s.ready = true → 1 ≤ s.bg_publishes)
  ∧ (3 ≤ s.fir_pc → s.ready = true)
  ∧ (2 ≤ s.fir3_pc → s.ready = true)
  ∧ (1 ≤ s.forced_publishes → s.ready = true)

lemma fir_program_work_index :
    ∀ (n : Nat) (e : Effect), fir_program.get? n = some e →
      e.isReloadWork = true → n = 3 := by
  intro n e h hw
  rcases n with _ | _ | _ | _ | _ | _ | n <;>
    simp [fir_program, forceindexreload] at h <;>
    first
      | rfl
      | (subst h; simp [Effect.isReloadWork] at hw)

lemma fir3_program_work_index :
    ∀ (n : Nat) (e : Effect), fir3_program.get? n = some e →
      e.isReloadWork = true → n = 2 := by
  intro n e h hw
  rcases n with _ | _ | _ | _ | _ | n <;>
    simp [fir3_program, forceindexreload3] at h <;>
    first
      | rfl
      | (subst h; simp [Effect.isReloadWork] at hw)

lemma fir_program_wait_at_two :
    fir_program.get? 2 = some Effect.waitUntilReady := rfl

lemma fir3_program_wait_at_one :
    fir3_program.get? 1 = some Effect.waitUntilReady := rfl

lemma execEffect_of_work {s : Sys} {e : Effect} (hw : e.isReloadWork = true) :
    execEffect s e = { s with forced_publishes := s.forced_publishes + 1 } := by
  simp [execEffect, hw]

lemma execEffect_of_not_work {s : Sys} {e : Effect}
    (hw : ¬e.isReloadWork = true) : execEffect s e = s := by
  simp [execEffect, hw]

lemma execEffect_fir_pc (s : Sys) (e : Effect) :
    (execEffect s e).fir_pc = s.fir_pc := by
  unfold execEffect
  split <;> rfl

lemma execEffect_fir3_pc (s : Sys) (e : Effect) :
    (execEffect s e).fir3_pc = s.fir3_pc := by
  unfold execEffect
  split <;> rfl

lemma sysInv_step {s t : Sys} (hs : SysInv s) (hstep : Step s t) : SysInv t := by
  obtain ⟨h1, h2, h3, h4⟩ := hs
  cases hstep with
  | bgSuccess =>
      exact ⟨fun _ => by simp, fun _ => rfl, fun _ => rfl, fun _ => rfl⟩
  | bgFailure =>
      exact ⟨h1, h2, h3, h4⟩
  | firStep e h henabled =>
      by_cases hw : e.isReloadWork = true
      · have hn : s.fir_pc = 3 := fir_program_work_index _ _ h hw
        have hready : s.ready = true := h2 (by omega)
        rw [execEffect_of_work hw]
        exact ⟨fun _ => h1 hready, fun _ => hready, h3, fun _ => hready⟩
      · rw [execEffect_of_not_work hw]
        refine ⟨h1, ?_, h3, h4⟩
        intro hpc
        have hge : 2 ≤ s.fir_pc := by
          have : (3 : Nat) ≤ s.fir_pc + 1 := hpc
          omega
        rcases Nat.eq_or_lt_of_le hge with heq | hlt
        · have he : e = Effect.waitUntilReady := by
            have hw2 := fir_program_wait_at_two
            rw [heq] at hw2
            exact Option.some.inj (h.symm.trans hw2)
          exact henabled he
        · exact h2 hlt
  | fir3Step e h henabled =>
      by_cases hw : e.isReloadWork = true
      · have hn : s.fir3_pc = 2 := fir3_program_work_index _ _ h hw
        have hready : s.ready = true := h3 (by omega)
        rw [execEffect_of_work hw]
        exact ⟨fun _ => h1 hready, h2, fun _ => hready, fun _ => hready⟩
      · rw [execEffect_of_not_work hw]
        refine ⟨h1, h2, ?_, h4⟩
        intro hpc
        have hge : 1 ≤ s.fir3_pc := by
          have : (2 : Nat) ≤ s.fir3_pc + 1 := hpc
          omega
        rcases Nat.eq_or_lt_of_le hge with heq | hlt
        · have he : e = Effect.waitUntilReady := by
            have hw2 := fir3_program_wait_at_one
            rw [heq] at hw2
            exact Option.some.inj (h.symm.trans hw2)
          exact henabled he
        · exact h3 hlt

lemma sysInv_reachable {s : Sys} (h : Reachable s) : SysInv s := by
  induction h with
  | init =>
      refine ⟨?_, ?_, ?_, ?_⟩ <;> simp [Sys.init]
  | step hr hstep ih => exact sysInv_step ih hstep

/-- C10: both forced-reload command bodies reach `wait_until_ready` before
their reload work (`fir` waits at step 2 and reloads at step 3 while holding
its gate from step 0; `fir3` waits at step 1 and reloads at step 2); a
command sitting at its wait cannot advance by any step while the readiness
flag is unset, so a forced reload invoked before the first successful
background refresh suspends until that publish; and in every reachable
state any forced reload work is preceded by at least one background
publish — a forced reload never produces the first publish. -/
theorem c10_forced_reload_waits_for_first_publish :
    (fir_program.get? 2 = some Effect.waitUntilReady
      ∧ fir_program.get? 3 = some Effect.downloadAndRefresh)
    ∧ (fir3_program.get? 1 = some Effect.waitUntilReady
      ∧ fir3_program.get? 2 = some Effect.createIndex)
    ∧ (∀ s t : Sys, s.ready = false → s.fir_pc = 2 → Step s t → t.fir_pc = 2)
    ∧ (∀ s t : Sys, s.ready = false → s.fir3_pc = 1 → Step s t → t.fir3_pc = 1)
    ∧ (∀ s : Sys, Reachable s → 1 ≤ s.forced_publishes → 1 ≤ s.bg_publishes) := by
  refine ⟨⟨rfl, rfl⟩, ⟨rfl, rfl⟩, ?_, ?_, ?_⟩
  · intro s t hready hpc hstep
    cases hstep with
    | bgSuccess => simpa using hpc
    | bgFailure => exact hpc
    | firStep e h henabled =>
        rw [hpc] at h
        have he : e = Effect.waitUntilReady :=
          Option.some.inj (h.symm.trans fir_program_wait_at_two)
        rw [henabled he] at hready
        exact absurd hready (by simp)
    | fir3Step e h henabled =>
        show (execEffect s e).fir_pc = 2
        rw [execEffect_fir_pc]
        exact hpc
  · intro s t hready hpc hstep
    cases hstep with
    | bgSuccess => simpa using hpc
    | bgFailure => exact hpc
    | firStep e h henabled =>
        show (execEffect s e).fir3_pc = 1
        rw [execEffect_fir3_pc]
        exact hpc
    | fir3Step e h henabled =>
        rw [hpc] at h
        have he : e = Effect.waitUntilReady :=
          Option.some.inj (h.symm.trans fir3_program_wait_at_one)
        rw [henabled he] at hready
        exact absurd hready (by simp)
  · intro s hr hforced
    have hinv := sysInv_reachable hr
    exact hinv.1 (hinv.2.2.2 hforced)

/-- Witness for C10: a concrete execution — one successful background
refresh, then the four leading steps of `forceindexreload` up to and
including its reload work — reaches a state with one forced publish, and the
theorem yields that a background publish preceded it. -/
theorem c10_forced_reload_waits_for_first_publish_witness :
    Reachable { ready := true, fir_pc := 4, fir3_pc := 0,
                bg_publishes := 1, forced_publishes := 1 }
    ∧ 1 ≤ ({ ready := true, fir_pc := 4, fir3_pc := 0,
             bg_publishes := 1, forced_publishes := 1 : Sys }).forced_publishes
    ∧ 1 ≤ ({ ready := true, fir_pc := 4, fir3_pc := 0,
             bg_publishes := 1, forced_publishes := 1 : Sys }).bg_publishes := by
  have h0 : Reachable Sys.init := Reachable.init
  have h1 : Reachable { ready := true, fir_pc := 0, fir3_pc := 0,
                        bg_publishes := 1, forced_publishes := 0 } :=
    Reachable.step h0 (Step.bgSuccess Sys.init)
  have h2 : Reachable { ready := true, fir_pc := 1, fir3_pc := 0,
                        bg_publishes := 1, forced_publishes := 0 } :=
    Reachable.step h1 (Step.firStep _ Effect.acquireFir rfl (fun _ => rfl))
  have h3 : Reachable { ready := true, fir_pc := 2, fir3_pc := 0,
                        bg_publishes := 1, forced_publishes := 0 } :=
    Reachable.step h2
      (Step.firStep _ Effect.sendStartingReload rfl (fun _ => rfl))
  have h4 : Reachable { ready := true, fir_pc := 3, fir3_pc := 0,
                        bg_publishes := 1, forced_publishes := 0 } :=
    Reachable.step h3 (Step.firStep _ Effect.waitUntilReady rfl (fun _ => rfl))
  have hreach : Reachable { ready := true, fir_pc := 4, fir3_pc := 0,
                            bg_publishes := 1, forced_publishes := 1 } :=
    Reachable.step h4
      (Step.firStep _ Effect.downloadAndRefresh rfl (fun _ => rfl))
  exact ⟨hreach, by decide,
    c10_forced_reload_waits_for_first_publish.2.2.2.2 _ hreach (by decide)⟩

end DBCogSpec
